import Mathlib

/-!
Shallow embedding of `src/main.py` of the finance-agent-openbb repository.

The program is a three-stage pipeline (translate a natural-language query
to an OpenBB command with an LLM, execute the command, summarize the
returned data with a second LLM call).  External effects are modelled by
oracles passed as function arguments:

* the Groq chat-completions endpoint is an oracle
  `llm : ChatRequest → Except String String` returning either the message
  content or the message of a raised exception;
* Python `eval` on the synthesized command is an oracle
  `ev : String → EvalOutcome`, since the evaluated command is arbitrary
  Python text; the number of data-platform calls that evaluation performs
  is a second oracle `evObbCalls : String → Nat`;
* exceptions are modelled by `Except String` carrying `str(e)`.

Python string operations used by the source (`strip`, `startswith`,
slicing, `len`) are given explicit list-based definitions so everything
evaluates by `decide` / `rfl`.
-/

namespace FinanceAgentPy

/-- Characters stripped by Python `str.strip()` with no argument
(the ASCII whitespace characters). -/
def py_isspace (c : Char) : Bool :=
  c == ' ' || c == '\t' || c == '\n' || c == '\r' || c == '\x0b' || c == '\x0c'

/-- Drop characters satisfying `p` from both ends of a list. -/
def strip_list (p : Char → Bool) (l : List Char) : List Char :=
  ((l.dropWhile p).reverse.dropWhile p).reverse

/-- Python `s.strip()`. -/
def py_strip (s : String) : String := String.mk (strip_list py_isspace s.data)

/-- The backtick character, U+0060. -/
def backtick : Char := '\x60'

/-- Python `s.strip(c)` for a one-character argument: remove every
occurrence of `c` from both ends. -/
def py_strip_char (s : String) (c : Char) : String :=
  String.mk (strip_list (fun d => d == c) s.data)

/-- Python `s.startswith(p)`. -/
def py_startswith (s p : String) : Bool := p.data.isPrefixOf s.data

/-- Python `len(s)` (a count of code points, as for Lean `Char` lists). -/
def py_len (s : String) : Nat := s.data.length

/-- Python `s[:n]`. -/
def py_take (s : String) (n : Nat) : String := String.mk (s.data.take n)

/-- Python `s[a:-b]`: the slice from index `a` up to `len(s) - b`,
empty when the bounds cross. -/
def py_slice_drop (s : String) (a b : Nat) : String :=
  String.mk ((s.data.take (s.data.length - b)).drop a)

/-- Lower-case hexadecimal digit. -/
def hex_digit (n : Nat) : Char :=
  if n < 10 then Char.ofNat (48 + n) else Char.ofNat (87 + n)

/-- Four lower-case hexadecimal digits, as in a JSON `\uXXXX` escape. -/
def hex4 (n : Nat) : List Char :=
  [hex_digit (n / 4096 % 16), hex_digit (n / 256 % 16),
   hex_digit (n / 16 % 16), hex_digit (n % 16)]

/-- The escape Python `json.dumps` (with its default `ensure_ascii=True`)
applies to one character of a string value. -/
def json_escape_char (c : Char) : List Char :=
  if c = '"' then ['\\', '"']
  else if c = '\\' then ['\\', '\\']
  else if c = '\n' then ['\\', 'n']
  else if c = '\t' then ['\\', 't']
  else if c = '\r' then ['\\', 'r']
  else if c = '\x08' then ['\\', 'b']
  else if c = '\x0c' then ['\\', 'f']
  else if c.toNat < 0x20 then '\\' :: 'u' :: hex4 c.toNat
  else if c.toNat < 0x7f then [c]
  else if c.toNat < 0x10000 then '\\' :: 'u' :: hex4 c.toNat
  else
    ('\\' :: 'u' :: hex4 (0xd800 + (c.toNat - 0x10000) / 0x400))
      ++ ('\\' :: 'u' :: hex4 (0xdc00 + (c.toNat - 0x10000) % 0x400))

/-- Python `json.dumps` escaping of a whole string value. -/
def json_escape (s : String) : String :=
  String.mk (s.data.map json_escape_char).flatten

/-- Python `json.dumps(\x7b"error": str(e)\x7d)`, the error payload built by
`FinanceAgent._execute_command`'s `except` branch (src/main.py line 100). -/
def json_dumps_error (m : String) : String :=
  "\x7b\"error\": \"" ++ json_escape m ++ "\"\x7d"

/-- One chat message, as in the `messages` list passed to
`groq_client.chat.completions.create`. -/
structure Message where
  role : String
  content : String
deriving DecidableEq, Repr

/-- The argument record of a `groq_client.chat.completions.create` call:
`messages`, `model`, and the `temperature` keyword argument (`none` when
the call does not pass one, as in `_summarize_result`). -/
structure ChatRequest where
  messages : List Message
  model : String
  temperature : Option Nat
deriving DecidableEq, Repr

/-- `self.model` set in `FinanceAgent.__init__` (src/main.py line 30). -/
def agent_model : String := "llama3-70b-8192"

/-- The system prompt of `FinanceAgent._get_openbb_command`
(src/main.py lines 37-55), a fixed string constant. -/
def synth_system_prompt : String :=
    "\n"
    ++ "        You are an expert financial analyst AI. Your task is to translate a user's natural language query into a single, executable Python command using the OpenBB library (\x60obb\x60).\n"
    ++ "\n"
    ++ "        Guidelines:\n"
    ++ "        1.  Only use functions available in the OpenBB SDK.\n"
    ++ "        2.  The final output must be a single line of executable Python code. For example: \x60obb.equity.price.historical(symbol='AAPL', start_date='2023-01-01', provider='fmp').to_df().to_json()\x60\n"
    ++ "        3.  If the command returns a data structure (like a DataFrame or a Pydantic model), you MUST append \x60.to_df().to_json(orient='records', date_format='iso')\x60 or \x60.to_json()\x60 to convert the output to a JSON string. This is crucial for the system to parse the data.\n"
    ++ "        4.  Do not generate any text other than the command itself. No explanations, no markdown, just the code.\n"
    ++ "\n"
    ++ "        Examples:\n"
    ++ "        - User Query: \"What's the latest news for Microsoft?\"\n"
    ++ "        - Command: \x60obb.news.company(provider='benzinga', symbol='MSFT', limit=5).to_json()\x60\n"
    ++ "\n"
    ++ "        - User Query: \"Get historical stock prices for NVDA from the start of 2024\"\n"
    ++ "        - Command: \x60obb.equity.price.historical(symbol='NVDA', start_date='2024-01-01', provider='fmp').to_df().to_json(orient='records', date_format='iso')\x60\n"
    ++ "\n"
    ++ "        - User Query: \"Show me the latest analyst estimates for GOOGL\"\n"
    ++ "        - Command: \x60obb.equity.estimates.price_target(symbol='GOOGL', provider='fmp').to_df().to_json(orient='records', date_format='iso')\x60\n"
    ++ "        "

/-- The chat request `_get_openbb_command` sends: the fixed system prompt,
the raw user query, `self.model`, and `temperature=0`
(src/main.py lines 57-70). -/
def synth_request (query : String) : ChatRequest :=
  { messages := [⟨"system", synth_system_prompt⟩, ⟨"user", query⟩],
    model := agent_model,
    temperature := some 0 }

/-- The markdown cleanup applied to the model's message content in
`_get_openbb_command` (src/main.py lines 71-76):
`strip()`, then if the text starts with a backtick followed by
`python` and a newline, take the slice `[8:-4]` and strip it, then if the
text starts with a backtick, `strip` backtick characters from both ends. -/
def postprocess_command (content : String) : String :=
  let command := py_strip content
  let command :=
    if py_startswith command "\x60python\n"
    then py_strip (py_slice_drop command 8 4)
    else command
  if py_startswith command "\x60" then py_strip_char command backtick else command

/-- `FinanceAgent._get_openbb_command` (src/main.py lines 32-79): one chat
call with `synth_request`, whose content is cleaned up by
`postprocess_command`.  An exception raised by the chat call propagates
(the `Except.error` case is returned unchanged: the method has no
exception handler and never inspects the exception, so the embedding is
polymorphic in the error type `ε` -- a plain message when only the text
matters, a typed exception where `main`'s handlers dispatch on it). -/
def _get_openbb_command {ε : Type} (llm : ChatRequest → Except ε String)
    (query : String) : Except ε String :=
  (llm (synth_request query)).map postprocess_command

/-- What Python `eval` returned for the command: a `str`, or a non-`str`
object, the latter recorded together with what
`json.dumps(result, indent=2)` yields on it (`Except.ok` the JSON text or
`Except.error` the message of the exception it raises). -/
inductive PyEvalValue where
  | pyStr (s : String)
  | nonStr (dumps : Except String String)

/-- The outcome of Python `eval` on the command: it raises, or returns a
value. -/
inductive EvalOutcome where
  | raises (msg : String)
  | returns (v : PyEvalValue)

/-- The `try`-block of `_execute_command` (src/main.py lines 87-97) as an
exception-monad value: `eval` the command, then coerce a non-string
result with `json.dumps(result, indent=2)` (which itself may raise). -/
def execute_body (o : EvalOutcome) : Except String String :=
  match o with
  | .raises m => Except.error m
  | .returns (.pyStr s) => Except.ok s
  | .returns (.nonStr d) => d

/-- `FinanceAgent._execute_command` (src/main.py lines 81-100): run the
`try`-block on `eval`'s outcome; the `except Exception` branch turns any
raised message `e` into `json.dumps(\x7b"error": str(e)\x7d)`. -/
def _execute_command (ev : String → EvalOutcome) (command : String) : String :=
  match execute_body (ev command) with
  | Except.ok s => s
  | Except.error e => json_dumps_error e

/-- `_execute_command` together with the trace of the strings the method
hands to Python `eval`: line 91 evaluates the raw `command` argument,
exactly once. -/
def _execute_command_traced (ev : String → EvalOutcome) (command : String) :
    String × List String :=
  (_execute_command ev command, [command])

/-- The executor property claimed by the spec: no string is ever handed to
the evaluator (dispatch happens through validated identifiers only). -/
def no_string_evaluation : Prop :=
  ∀ (ev : String → EvalOutcome) (command : String),
    (_execute_command_traced ev command).2 = []

/-- `max_data_length` of `_summarize_result` (src/main.py line 109). -/
def max_data_length : Nat := 15000

/-- The marker appended on truncation (src/main.py line 111). -/
def truncation_marker : String := "... [data truncated]"

/-- The truncation step of `_summarize_result` (src/main.py lines 108-111):
data strictly longer than `max_data_length` is cut to its first
`max_data_length` characters and the marker is appended. -/
def truncate_data (data : String) : String :=
  if py_len data > max_data_length
  then py_take data max_data_length ++ truncation_marker
  else data

/-- The system prompt of `FinanceAgent._summarize_result`
(src/main.py lines 113-118), a fixed string constant. -/
def summarize_system_prompt : String :=
    "\n"
    ++ "        You are an expert financial analyst AI. You will be given a user's question and the corresponding data retrieved from the OpenBB financial platform.\n"
    ++ "        Your task is to provide a clear, concise, and helpful answer to the user's question based *only* on the provided data.\n"
    ++ "        If the data contains an error, acknowledge the error and explain what might have gone wrong.\n"
    ++ "        Format your answer in well-structured markdown.\n"
    ++ "        "

/-- The user message of `_summarize_result` (src/main.py line 120),
an f-string over the query and the (already truncated) data. -/
def summarize_user_content (query data : String) : String :=
  "Original Question: " ++ query ++ "\n\nRetrieved Data (in JSON format):\n" ++ data

/-- The chat request `_summarize_result` sends (src/main.py lines 122-134):
fixed system prompt, user content over the truncated data, `self.model`,
and no `temperature` argument. -/
def summarize_request (query data : String) : ChatRequest :=
  { messages := [⟨"system", summarize_system_prompt⟩,
                 ⟨"user", summarize_user_content query data⟩],
    model := agent_model,
    temperature := none }

/-- `FinanceAgent._summarize_result` (src/main.py lines 102-137): truncate
the data, make one chat call, and return its content.  The method has no
exception handler, so a fault of the chat call (`Except.error`) is
returned unchanged, i.e. propagates to the caller (error type
polymorphic, as for `_get_openbb_command`). -/
def _summarize_result {ε : Type} (llm : ChatRequest → Except ε String)
    (query data : String) : Except ε String :=
  llm (summarize_request query (truncate_data data))

/-- Python truthiness of an `os.getenv` result: `not s` holds for `None`
and for the empty string. -/
def py_not_str (s : Option String) : Bool :=
  match s with
  | none => true
  | some s => s == ""

/-- Counts of interactions with the two external services: construction
of the Groq client / chat calls on the one hand, `obb.account.login` and
data-platform calls made by evaluating a command on the other. -/
structure ExtCalls where
  groq : Nat
  openbb : Nat
deriving DecidableEq, Repr

/-- A Python exception escaping to `main`'s handlers: its message
(`str(e)`) together with whether it is a `ValueError`, since `main`'s
first handler is `except ValueError` (src/main.py line 165) and that
handler catches every `ValueError` raised inside the `try` block of
lines 159-164 -- the credential check, but also, e.g., a pydantic
`ValidationError` (a `ValueError` subclass) raised by the SDKs after the
check or inside `agent.run`. -/
structure PyError where
  isValueError : Bool
  msg : String
deriving DecidableEq, Repr

/-- The message of the `ValueError` raised by `FinanceAgent.__init__`
(src/main.py line 24). -/
def config_error_message : String := "GROQ_API_KEY and OPENBB_PAT must be set."

/-- `FinanceAgent.__init__` (src/main.py lines 15-30): the credential check
comes first and raises its `ValueError` with zero external interactions.
With both values truthy the constructor builds the Groq client -- which
may itself raise (oracle `groqInit`), counted as the attempted
LLM-service interaction -- and then calls `obb.account.login(pat=...)`,
a network call that may raise (oracle `obbLogin`), counted as the
data-platform interaction.  Either raise propagates to `main`. -/
def FinanceAgent_init (groq_api_key openbb_pat : Option String)
    (groqInit obbLogin : Option PyError) : Except PyError Unit × ExtCalls :=
  if py_not_str groq_api_key || py_not_str openbb_pat then
    (Except.error ⟨true, config_error_message⟩, ⟨0, 0⟩)
  else
    match groqInit with
    | some e => (Except.error e, ⟨1, 0⟩)
    | none =>
      match obbLogin with
      | some e => (Except.error e, ⟨1, 1⟩)
      | none => (Except.ok (), ⟨1, 1⟩)

/-- What `main` reports (src/main.py lines 153-169): the summary printed by
`run`, or the message printed by the `except ValueError` handler (which
also prints the `.env` hint), or the message of the generic
`except Exception` handler. -/
inductive MainOutcome where
  | answered (summary : String)
  | configErrorReported (msg : String)
  | unexpectedErrorReported (msg : String)
deriving DecidableEq, Repr

/-- The two `except` branches of `main` (src/main.py lines 165-169)
applied to an exception that escaped the `try` block: a `ValueError`
(of whatever origin) is printed by the configuration-error handler, any
other exception by the generic handler. -/
def main_handle (e : PyError) : MainOutcome :=
  if e.isValueError then MainOutcome.configErrorReported e.msg
  else MainOutcome.unexpectedErrorReported e.msg

/-- The pipeline of `FinanceAgent.run` driven by `main` after a successful
`__init__` (src/main.py lines 139-151, 164), with the call counters
threaded through: the synthesis chat call, then command execution (whose
data-platform call count is `evObbCalls command`), then the summarization
chat call.  A fault of either chat call propagates out of `run` and is
dispatched by `main`'s typed handlers (`main_handle`): a `ValueError`
raised here is caught by the same `except ValueError` as the credential
check. -/
def main_pipeline (llm : ChatRequest → Except PyError String)
    (ev : String → EvalOutcome) (evObbCalls : String → Nat) (query : String)
    (calls : ExtCalls) : MainOutcome × ExtCalls :=
  match _get_openbb_command llm query with
  | Except.error e => (main_handle e, ⟨calls.groq + 1, calls.openbb⟩)
  | Except.ok command =>
    let data := _execute_command ev command
    match _summarize_result llm query data with
    | Except.error e =>
        (main_handle e,
         ⟨calls.groq + 2, calls.openbb + evObbCalls command⟩)
    | Except.ok summary =>
        (.answered summary,
         ⟨calls.groq + 2, calls.openbb + evObbCalls command⟩)

/-- `main` (src/main.py lines 153-169): one `try` block spans the agent
construction and `agent.run(args.query)`; an exception raised anywhere in
it is dispatched by exception type (`main_handle`), so the
configuration-error handler is the `except ValueError` branch, not a
branch reserved to the credential check.  The second component counts the
external-service interactions performed. -/
def main_run (gk pat : Option String) (groqInit obbLogin : Option PyError)
    (llm : ChatRequest → Except PyError String) (ev : String → EvalOutcome)
    (evObbCalls : String → Nat) (query : String) : MainOutcome × ExtCalls :=
  match FinanceAgent_init gk pat groqInit obbLogin with
  | (Except.error e, calls) => (main_handle e, calls)
  | (Except.ok _, calls) => main_pipeline llm ev evObbCalls query calls

/-- A string of `n` letters `a`, used as a concrete data payload. -/
def repeat_a (n : Nat) : String := String.mk (List.replicate n 'a')

theorem repeat_a_len (n : Nat) : py_len (repeat_a n) = n :=
  List.length_replicate n 'a'

/-- C1: the claim says the executor dispatches to the CapabilitySurface
using only a validated operation identifier and parameters, with no
string evaluation of the synthesized text.  The code refutes it:
`_execute_command` hands the raw synthesized string to Python `eval`
(src/main.py line 91), so the eval trace at any command is that command
itself, and `no_string_evaluation` is false. -/
theorem C1_executor_evals_raw_text :
    (_execute_command_traced (fun _ => EvalOutcome.raises "NameError")
        "__import__(\"os\").getcwd()").2 = ["__import__(\"os\").getcwd()"]
    ∧ ¬ no_string_evaluation := by
  refine ⟨rfl, fun h => ?_⟩
  have := h (fun _ => EvalOutcome.raises "NameError") "obb.news.company()"
  simp [_execute_command_traced] at this

/-- C2: the claim says an operation outside the allow-list yields
`Failure("unknown operation")` with no CapabilitySurface invocation.
The code refutes it: there is no allow-list, the unknown-operation
command is still handed to `eval` (the trace is non-empty), and what is
returned is the JSON encoding of the Python exception text, not
`Failure("unknown operation")`. -/
theorem C2_unknown_operation_still_evaluated :
    (_execute_command_traced
        (fun _ => EvalOutcome.raises "module obb has no attribute nonexistent")
        "obb.nonexistent.op()").2 = ["obb.nonexistent.op()"]
    ∧ (_execute_command
        (fun _ => EvalOutcome.raises "module obb has no attribute nonexistent")
        "obb.nonexistent.op()")
      = json_dumps_error "module obb has no attribute nonexistent"
    ∧ json_dumps_error "module obb has no attribute nonexistent"
        ≠ "Failure(\"unknown operation\")" := by
  refine ⟨rfl, rfl, ?_⟩
  decide

/-- C3: `_execute_command` never lets a fault escape: whenever the
`try`-block (eval, then JSON coercion of a non-string result) raises with
message `m`, the method returns the string
`json.dumps(\x7b"error": m\x7d)` instead of propagating. -/
theorem C3_execute_captures_every_fault (ev : String → EvalOutcome)
    (command m : String) (h : execute_body (ev command) = Except.error m) :
    _execute_command ev command = json_dumps_error m := by
  unfold _execute_command
  rw [h]

theorem C3_execute_captures_every_fault_witness :
    _execute_command (fun _ => EvalOutcome.raises "rate limit exceeded")
        "obb.equity.price.historical()"
      = json_dumps_error "rate limit exceeded" :=
  C3_execute_captures_every_fault _ _ _ rfl

/-- C4: the claim says `summarize` never fails and always returns a
non-empty Summary.  The code refutes it: `_summarize_result` has no
exception handler, so a fault of the chat call propagates out of the
method unchanged; and when the model's content is the empty string, the
returned Summary is empty. -/
theorem C4_summarize_propagates_faults :
    _summarize_result (fun _ => Except.error "APIConnectionError") "query" "data"
      = Except.error "APIConnectionError"
    ∧ _summarize_result (fun _ => (Except.ok "" : Except String String)) "query" "data"
      = Except.ok "" :=
  ⟨rfl, rfl⟩

/-- C5: for serialized data strictly longer than the 15000-character
ceiling, the string embedded in the chat request `_summarize_result`
sends is exactly the first 15000 characters of the data followed by the
truncation marker, never the full payload. -/
theorem C5_truncation_exact (query data : String)
    (h : py_len data > max_data_length) :
    truncate_data data = py_take data max_data_length ++ truncation_marker
    ∧ summarize_request query (truncate_data data)
      = { messages :=
            [⟨"system", summarize_system_prompt⟩,
             ⟨"user", summarize_user_content query
                (py_take data max_data_length ++ truncation_marker)⟩],
          model := agent_model,
          temperature := none } := by
  have ht : truncate_data data = py_take data max_data_length ++ truncation_marker := by
    unfold truncate_data
    rw [if_pos h]
  exact ⟨ht, by rw [ht]; rfl⟩

theorem C5_truncation_exact_witness :
    py_len (repeat_a 15001) > max_data_length
    ∧ (truncate_data (repeat_a 15001)
        = py_take (repeat_a 15001) max_data_length ++ truncation_marker
      ∧ summarize_request "q" (truncate_data (repeat_a 15001))
        = { messages :=
              [⟨"system", summarize_system_prompt⟩,
               ⟨"user", summarize_user_content "q"
                  (py_take (repeat_a 15001) max_data_length ++ truncation_marker)⟩],
            model := agent_model,
            temperature := none }) :=
  ⟨by rw [gt_iff_lt, repeat_a_len]; decide,
   C5_truncation_exact "q" (repeat_a 15001) (by rw [gt_iff_lt, repeat_a_len]; decide)⟩

/-- C6 counterexample: with both credentials present, a `ValueError`
raised by the data-platform login (a pydantic validation error, say,
which subclasses `ValueError`) escapes to the same `except ValueError`
handler and is reported as the configuration error, after one attempted
interaction with each external service -- so the startup configuration
error is not the only error that ends the process through that handler,
refuting the claim's final clause. -/
theorem C6_only_config_error_refuted :
    main_run (some "groq-key") (some "obb-pat") none
        (some ⟨true, "1 validation error for login"⟩)
        (fun _ => Except.ok "obb.x()") (fun _ => EvalOutcome.raises "e")
        (fun _ => 0) "query"
      = (MainOutcome.configErrorReported "1 validation error for login", ⟨1, 1⟩)
    ∧ "1 validation error for login" ≠ config_error_message :=
  ⟨rfl, by decide⟩

/-- C6 amended: with either credential absent or empty, `main` reports
exactly the constructor's configuration error and zero calls are made to
both external services, whatever the later steps would have done (the
check precedes both); but that configuration error is not the only error
ending the process: the same `except ValueError` handler also reports
(second conjunct) any `ValueError` raised by the platform login after a
successful credential check. -/
theorem C6_missing_credentials_fail_fast (gk pat : Option String)
    (groqInit obbLogin : Option PyError)
    (llm : ChatRequest → Except PyError String) (ev : String → EvalOutcome)
    (evObbCalls : String → Nat) (query : String)
    (h : (py_not_str gk || py_not_str pat) = true) :
    main_run gk pat groqInit obbLogin llm ev evObbCalls query
      = (MainOutcome.configErrorReported config_error_message, ⟨0, 0⟩)
    ∧ ∀ gk2 pat2 e, (py_not_str gk2 || py_not_str pat2) = false →
        e.isValueError = true →
        main_run gk2 pat2 none (some e) llm ev evObbCalls query
          = (MainOutcome.configErrorReported e.msg, ⟨1, 1⟩) := by
  constructor
  · simp [main_run, FinanceAgent_init, h, main_handle]
  · intro gk2 pat2 e h2 he
    simp [main_run, FinanceAgent_init, h2, main_handle, he]

theorem C6_missing_credentials_fail_fast_witness :
    (py_not_str none || py_not_str (some "obb-token")) = true
    ∧ (main_run none (some "obb-token") none none
          (fun _ => Except.ok "obb.x()") (fun _ => EvalOutcome.raises "e")
          (fun _ => 0) "query"
        = (MainOutcome.configErrorReported config_error_message, ⟨0, 0⟩)
      ∧ ∀ gk2 pat2 e, (py_not_str gk2 || py_not_str pat2) = false →
          e.isValueError = true →
          main_run gk2 pat2 none (some e)
              (fun _ => Except.ok "obb.x()") (fun _ => EvalOutcome.raises "e")
              (fun _ => 0) "query"
            = (MainOutcome.configErrorReported e.msg, ⟨1, 1⟩)) :=
  ⟨rfl, C6_missing_credentials_fail_fast none (some "obb-token") none none _ _ _ _ rfl⟩

/-- C7: synthesis is deterministic: the chat request is built from the
query alone, carries the fixed system instruction, the raw query and
`temperature=0`, and two calls whose (mocked) model responses agree on
that request produce identical commands. -/
theorem C7_synthesis_deterministic (query : String)
    (resp : Except String String)
    (llm1 llm2 : ChatRequest → Except String String)
    (h1 : llm1 (synth_request query) = resp)
    (h2 : llm2 (synth_request query) = resp) :
    _get_openbb_command llm1 query = _get_openbb_command llm2 query
    ∧ (synth_request query).temperature = some 0
    ∧ (synth_request query).messages
        = [⟨"system", synth_system_prompt⟩, ⟨"user", query⟩] := by
  refine ⟨?_, rfl, rfl⟩
  unfold _get_openbb_command
  rw [h1, h2]

theorem C7_synthesis_deterministic_witness :
    _get_openbb_command
        (fun _ => (Except.ok "obb.news.company(symbol=\"MSFT\")" : Except String String))
        "news?"
      = _get_openbb_command
        (fun _ => (Except.ok "obb.news.company(symbol=\"MSFT\")" : Except String String))
        "news?"
    ∧ (synth_request "news?").temperature = some 0
    ∧ (synth_request "news?").messages
        = [⟨"system", synth_system_prompt⟩, ⟨"user", "news?"⟩] :=
  C7_synthesis_deterministic "news?" (Except.ok "obb.news.company(symbol=\"MSFT\")")
    _ _ rfl rfl

/-- C8: the claim says the post-processing removes markdown code-fence
wrapping.  The code refutes it on the standard fence: a content wrapped
in a triple-backtick fence with a `python` language tag fails the first
branch (whose tested prefix is a single backtick before `python`), and
the fallback only strips backtick characters, so the returned string
still carries the language tag and the inner newlines instead of being
the bare command. -/
theorem C8_triple_fence_not_unwrapped :
    postprocess_command "\x60\x60\x60python\nobb.news.company(symbol=\"MSFT\")\n\x60\x60\x60"
      = "python\nobb.news.company(symbol=\"MSFT\")\n"
    ∧ postprocess_command "\x60\x60\x60python\nobb.news.company(symbol=\"MSFT\")\n\x60\x60\x60"
      ≠ "obb.news.company(symbol=\"MSFT\")" := by
  refine ⟨by decide, by decide⟩

/-- C9: the value `_execute_command` hands onward is always a string:
a string result is returned as is, a non-string result is replaced by its
`json.dumps` serialization, and any fault -- a raise during `eval` or
during that serialization -- is encoded as
`json.dumps(\x7b"error": str(e)\x7d)` rather than any tagged value. -/
theorem C9_execute_normalizes_to_string (ev : String → EvalOutcome)
    (command : String) :
    (∀ s, ev command = EvalOutcome.returns (.pyStr s) →
        _execute_command ev command = s)
    ∧ (∀ j, ev command = EvalOutcome.returns (.nonStr (Except.ok j)) →
        _execute_command ev command = j)
    ∧ (∀ m, ev command = EvalOutcome.raises m →
        _execute_command ev command = json_dumps_error m)
    ∧ (∀ m, ev command = EvalOutcome.returns (.nonStr (Except.error m)) →
        _execute_command ev command = json_dumps_error m) := by
  refine ⟨?_, ?_, ?_, ?_⟩ <;> intro x h <;> simp [_execute_command, execute_body, h]

theorem C9_execute_normalizes_to_string_witness :
    _execute_command
        (fun _ => EvalOutcome.returns (.nonStr (Except.error "not JSON serializable")))
        "obb.equity.profile(symbol=\"AAPL\")"
      = json_dumps_error "not JSON serializable" :=
  (C9_execute_normalizes_to_string
      (fun _ => EvalOutcome.returns (.nonStr (Except.error "not JSON serializable")))
      "obb.equity.profile(symbol=\"AAPL\")").2.2.2 "not JSON serializable" rfl

/-- C10: truncation uses a strict inequality: data of length exactly 15000
is left untouched, and the chat request embeds it unmodified, with no
truncation marker. -/
theorem C10_exact_ceiling_untouched (query data : String)
    (h : py_len data = max_data_length) :
    truncate_data data = data
    ∧ summarize_request query (truncate_data data)
      = { messages :=
            [⟨"system", summarize_system_prompt⟩,
             ⟨"user", summarize_user_content query data⟩],
          model := agent_model,
          temperature := none } := by
  have ht : truncate_data data = data := by
    unfold truncate_data
    rw [if_neg]
    rw [h]
    exact lt_irrefl max_data_length
  exact ⟨ht, by rw [ht]; rfl⟩

theorem C10_exact_ceiling_untouched_witness :
    py_len (repeat_a 15000) = max_data_length
    ∧ (truncate_data (repeat_a 15000) = repeat_a 15000
      ∧ summarize_request "q" (truncate_data (repeat_a 15000))
        = { messages :=
              [⟨"system", summarize_system_prompt⟩,
               ⟨"user", summarize_user_content "q" (repeat_a 15000)⟩],
            model := agent_model,
            temperature := none }) :=
  ⟨repeat_a_len 15000,
   C10_exact_ceiling_untouched "q" (repeat_a 15000) (repeat_a_len 15000)⟩

end FinanceAgentPy
